import Mathlib

/-!
# Restaurant review API: filtering, lookup and statistics

A shallow embedding of the three request handlers of the backend

* `GET /api/restaurants`      (`routes/restaurants.js`, `router.get('/')`),
* `GET /api/restaurants/:id`  (`routes/restaurants.js`, `router.get('/:id')`),
* `GET /api/stats`            (`server.js`, `app.get('/api/stats')`),

followed by the properties proved about them.

Modelling conventions.

* Records are typed as the data model describes them.  The only field the code itself
  treats as possibly absent is `averageRating` (`typeof r.averageRating === 'number'`,
  `r.averageRating || 0`), so it is an `Option`; `none` is the JavaScript `undefined`.
* A JSON number is a finite binary64 value and is represented by the rational it denotes.
  Comparisons (`>=`, `===`) and the sign of a difference are the same on doubles and on
  the rationals they denote, so these are computed exactly.
* Operations of the JavaScript runtime whose *rounded value* or whose text processing is
  observable (`toLowerCase`, `parseFloat`, `parseInt`, `Date` parsing, the addition and
  division of doubles, `toFixed`) are not part of the repository; the handlers take them
  from a `Runtime` record and every general theorem holds for every such record.
  `binary64Runtime` is the record whose arithmetic rounds to the nearest binary64 value.
* `readJsonFile` is not part of the sources; a handler receives what the call produced:
  `none` when it threw, `some v` when it returned `v`.  The statistics handler tests the
  loaded values with `Array.isArray` and reads a property of every element, so there a
  loaded value is an array or not, and an element of an array is `null`, a value that is
  not an object, or a record.
-/

namespace RestaurantReview

/-! ## JavaScript numbers -/

/-- A JavaScript Number: `NaN`, the two infinities, or a finite value. -/
inductive JSNum where
  | nan
  | negInf
  | num (q : ℚ)
  | posInf
  deriving DecidableEq

namespace JSNum

/-- The relational operator `a >= b` on Numbers: `false` as soon as one side is `NaN`. -/
def ge : JSNum → JSNum → Bool
  | nan, _ => false
  | _, nan => false
  | _, negInf => true
  | posInf, _ => true
  | negInf, _ => false
  | num _, posInf => false
  | num a, num b => decide (b ≤ a)

/-- Strict equality `a === b` on Numbers: `NaN` is equal to nothing, itself included. -/
def strictEq : JSNum → JSNum → Bool
  | nan, _ => false
  | _, nan => false
  | negInf, negInf => true
  | posInf, posInf => true
  | num a, num b => decide (a = b)
  | _, _ => false

/-- The subtraction `a - b`.  On finite values the exact difference is taken: the rounded
binary64 difference has the same sign, and the callers only hand the result to `sort`. -/
def sub : JSNum → JSNum → JSNum
  | nan, _ => nan
  | _, nan => nan
  | posInf, posInf => nan
  | negInf, negInf => nan
  | posInf, _ => posInf
  | negInf, _ => negInf
  | num _, posInf => negInf
  | num _, negInf => posInf
  | num a, num b => num (a - b)

/-- Whether `v > 0`; `NaN` is not. -/
def isPositive : JSNum → Bool
  | posInf => true
  | num q => decide (0 < q)
  | _ => false

end JSNum

/-- `ToNumber` of a field that holds a number or is `undefined`. -/
def toNumber : Option ℚ → JSNum
  | none => JSNum.nan
  | some q => JSNum.num q

/-! ## The runtime -/

/-- The built-in operations of the JavaScript runtime the handlers call. -/
structure Runtime where
  /-- `String.prototype.toLowerCase`. -/
  toLowerCase : String → String
  /-- The global `parseFloat`. -/
  parseFloat : String → JSNum
  /-- The global `parseInt` (called without a radix). -/
  parseInt : String → JSNum
  /-- The time value of `new Date(s)`; `NaN` for an invalid date. -/
  dateValue : String → JSNum
  /-- Binary64 addition. -/
  add : JSNum → JSNum → JSNum
  /-- Binary64 division. -/
  div : JSNum → JSNum → JSNum
  /-- `Number.prototype.toFixed`. -/
  toFixed : JSNum → Nat → String
  /-- `parseFloat("")` is `NaN`. -/
  parseFloat_empty : parseFloat "" = JSNum.nan

/-- `String.prototype.includes`: `sub` occurs in `s` as a contiguous run of characters. -/
def includes (s sub : String) : Bool :=
  decide (sub.data <:+: s.data)

/-- `Array.prototype.sort(comparefn)`.  The sort is stable, an element moves behind a
later one only when `comparefn` answers a value `> 0`, and a `NaN` answer counts as `+0`.
For a consistent comparator this determines the result; insertion sort computes it. -/
def arraySort {α : Type} (comparefn : α → α → JSNum) (xs : List α) : List α :=
  List.insertionSort (fun a b => (comparefn a b).isPositive = false) xs

/-! ## Data model -/

/-- A restaurant record of `restaurants.json`. -/
structure Restaurant where
  id : ℚ
  name : String
  description : String
  category : String
  averageRating : Option ℚ
  priceRange : ℚ
  deriving DecidableEq

/-- A review record of `reviews.json`. -/
structure Review where
  id : ℚ
  restaurantId : ℚ
  createdAt : String
  rating : ℚ
  text : String
  deriving DecidableEq

/-- What a handler sends: `res.json` with `success: true` and a body, or
`res.status(status).json` with `success: false` and a message. -/
inductive Response (α : Type) where
  | ok (body : α)
  | fail (status : Nat) (message : String)
  deriving DecidableEq

/-- The response is a failure envelope (`success: false`). -/
def Response.isFailure {α : Type} : Response α → Bool
  | Response.ok _ => false
  | Response.fail _ _ => true

/-- A value produced by `readJsonFile` that is not an array. -/
inductive NonArray where
  | null
  | bool (b : Bool)
  | number (q : ℚ)
  | string (s : String)
  | object
  deriving DecidableEq

/-- A JSON value that is neither `null` nor an object: a property read on it gives
`undefined`. -/
inductive Plain where
  | bool (b : Bool)
  | number (q : ℚ)
  | string (s : String)
  | array
  deriving DecidableEq

/-- An element of a loaded array: `null`, a value that is not an object, or a record. -/
inductive Element (α : Type) where
  | null
  | plain (v : Plain)
  | record (r : α)
  deriving DecidableEq

/-- A value produced by `readJsonFile`: an array of elements, or anything else. -/
inductive Loaded (α : Type) where
  | array (items : List (Element α))
  | other (v : NonArray)
  deriving DecidableEq

/-- `Array.isArray`. -/
def Loaded.isArray {α : Type} : Loaded α → Bool
  | Loaded.array _ => true
  | Loaded.other _ => false

/-! ## `GET /api/restaurants` -/

/-- The query parameters `req.query` of the listing; `none` is `undefined`. -/
structure Query where
  search : Option String
  category : Option String
  minRating : Option String
  priceRange : Option String
  deriving DecidableEq

/-- The guard `if (x)` on a query parameter, which is also `x || null` of the echoed
filters: `undefined` and the empty string are falsy, every other string is truthy. -/
def truthy : Option String → Option String
  | none => none
  | some s => if s = "" then none else some s

/-- The body of the successful listing response. -/
structure ListBody where
  data : List Restaurant
  total : Nat
  filters : Query
  deriving DecidableEq

/-- The handler `router.get('/')`. -/
def getRestaurants (rt : Runtime) (restaurantsFile : Option (List Restaurant))
    (query : Query) : Response ListBody :=
  match restaurantsFile with
  | none => Response.fail 500 "เกิดข้อผิดพลาดในการดึงข้อมูลร้าน"
  | some restaurants =>
    let restaurants :=
      match truthy query.search with
      | some search =>
        let searchLower := rt.toLowerCase search
        restaurants.filter fun r =>
          includes (rt.toLowerCase r.name) searchLower ||
          includes (rt.toLowerCase r.description) searchLower
      | none => restaurants
    let restaurants :=
      match truthy query.category with
      | some category =>
        restaurants.filter fun r =>
          decide (rt.toLowerCase r.category = rt.toLowerCase category)
      | none => restaurants
    let restaurants :=
      match truthy query.minRating with
      | some minRating =>
        let min := rt.parseFloat minRating
        restaurants.filter fun r => JSNum.ge (toNumber r.averageRating) min
      | none => restaurants
    let restaurants :=
      match truthy query.priceRange with
      | some priceRange =>
        let range := rt.parseInt priceRange
        restaurants.filter fun r => JSNum.strictEq (JSNum.num r.priceRange) range
      | none => restaurants
    Response.ok
      { data := restaurants
        total := restaurants.length
        filters :=
          { search := truthy query.search
            category := truthy query.category
            minRating := truthy query.minRating
            priceRange := truthy query.priceRange } }

/-! ## `GET /api/restaurants/:id` -/

/-- The body of the successful lookup response: the fields of the restaurant (`...restaurant`)
and its reviews. -/
structure DetailBody where
  restaurant : Restaurant
  reviews : List Review
  deriving DecidableEq

/-- The handler `router.get('/:id')`. -/
def getRestaurantById (rt : Runtime) (restaurantsFile : Option (List Restaurant))
    (reviewsFile : Option (List Review)) (id : String) : Response DetailBody :=
  match restaurantsFile, reviewsFile with
  | some restaurants, some reviews =>
    match restaurants.find? fun r => JSNum.strictEq (JSNum.num r.id) (rt.parseInt id) with
    | none => Response.fail 404 "ไม่พบร้านอาหารนี้"
    | some restaurant =>
      let restaurantReviews :=
        arraySort
          (fun a b => JSNum.sub (rt.dateValue b.createdAt) (rt.dateValue a.createdAt))
          (reviews.filter fun r =>
            JSNum.strictEq (JSNum.num r.restaurantId) (rt.parseInt id))
      Response.ok { restaurant := restaurant, reviews := restaurantReviews }
  | _, _ => Response.fail 500 "เกิดข้อผิดพลาดในการดึงข้อมูลร้าน"

/-! ## `GET /api/stats` -/

/-- The body of the successful statistics response. -/
structure StatsBody where
  totalRestaurants : Nat
  totalReviews : Nat
  averageRating : JSNum
  topRatedRestaurants : List Restaurant
  deriving DecidableEq

/-- The operand `value || 0` for a value that is a number or `undefined`: `undefined` and `0`
are falsy and give `0`. -/
def orZero : Option ℚ → ℚ
  | none => 0
  | some q => if q = 0 then 0 else q

/-- The operand `r.averageRating || 0` on a record. -/
def ratingOrZero (r : Restaurant) : ℚ :=
  orZero r.averageRating

/-- The property read `r.averageRating` on an element of the array: it throws a `TypeError`
on `null` (`none`), gives `undefined` on a value that is not an object, and the field of a
record. -/
def readAverageRating : Element Restaurant → Option (Option ℚ)
  | Element.null => none
  | Element.plain _ => some none
  | Element.record r => some r.averageRating

/-- The call `.filter(r => typeof r.averageRating === 'number')`: `none` when a read throws;
the elements kept are records and are returned as such. -/
def keepRated : List (Element Restaurant) → Option (List Restaurant)
  | [] => some []
  | Element.null :: _ => none
  | Element.plain _ :: rest => keepRated rest
  | Element.record r :: rest =>
    (keepRated rest).map fun kept => if r.averageRating.isSome then r :: kept else kept

/-- The handler `app.get('/api/stats')`.  A throw inside the `try` block is answered by the
`catch` block. -/
def getStats (rt : Runtime) (restaurantsFile : Option (Loaded Restaurant))
    (reviewsFile : Option (Loaded Review)) : Response StatsBody :=
  match restaurantsFile, reviewsFile with
  | some (Loaded.array restaurants), some (Loaded.array reviews) =>
    let totalRestaurants := restaurants.length
    let totalReviews := reviews.length
    match restaurants.foldlM
        (fun sum r => (readAverageRating r).map fun v => rt.add sum (JSNum.num (orZero v)))
        (JSNum.num 0) with
    | none => Response.fail 500 "เกิดข้อผิดพลาดในการดึงสถิติ"
    | some totalRating =>
      let averageRating :=
        if totalRestaurants > 0 then
          rt.parseFloat (rt.toFixed (rt.div totalRating (JSNum.num totalRestaurants)) 1)
        else JSNum.num 0
      match keepRated restaurants with
      | none => Response.fail 500 "เกิดข้อผิดพลาดในการดึงสถิติ"
      | some rated =>
        let topRatedRestaurants :=
          ((arraySort
              (fun a b =>
                JSNum.sub (JSNum.num (ratingOrZero b)) (JSNum.num (ratingOrZero a)))
              rated).drop 0).take 5
        Response.ok
          { totalRestaurants := totalRestaurants
            totalReviews := totalReviews
            averageRating := averageRating
            topRatedRestaurants := topRatedRestaurants }
  | some _, some _ => Response.fail 500 "ไฟล์ข้อมูลไม่ถูกต้อง"
  | _, _ => Response.fail 500 "เกิดข้อผิดพลาดในการดึงสถิติ"

/-! ## A concrete runtime for the worked examples -/

/-- Lower-casing of the ASCII letters, on which it agrees with `toLowerCase`. -/
def asciiLower (s : String) : String :=
  String.mk (s.data.map Char.toLower)

/-- The value of a run of decimal digits, `none` when a character is not a digit. -/
def digitsValue : List Char → Option Nat
  | [] => some 0
  | c :: cs =>
    if c.isDigit then
      (digitsValue cs).map fun v => (c.toNat - 48) * 10 ^ cs.length + v
    else none

/-- The number written by `digits` or `digits.digits`; `NaN` for any other text.  It agrees
with `parseFloat` on texts of these two shapes, on the empty text and on texts that start
with a letter other than `I` (`parseFloat` reads a numeric prefix, when there is one). -/
def parseDecimal (s : String) : JSNum :=
  match s.data.span Char.isDigit with
  | ([], _) => JSNum.nan
  | (whole, []) =>
    match digitsValue whole with
    | some w => JSNum.num w
    | none => JSNum.nan
  | (whole, c :: frac) =>
    match c == '.' && !frac.isEmpty, digitsValue whole, digitsValue frac with
    | true, some w, some f => JSNum.num (w + (f : ℚ) / (10 : ℚ) ^ frac.length)
    | _, _, _ => JSNum.nan

/-- The integer written by a run of digits; `NaN` for any other text.  It agrees with
`parseInt` on runs of digits, on the empty text and on texts that start with a letter. -/
def parseDigits (s : String) : JSNum :=
  match s.data, digitsValue s.data with
  | _ :: _, some v => JSNum.num v
  | _, _ => JSNum.nan

/-- The time value of the three timestamps of the worked examples (the first milliseconds
of the epoch); `NaN` for any other text. -/
def sampleDate (s : String) : JSNum :=
  if s = "1970-01-01T00:00:00.001Z" then JSNum.num 1
  else if s = "1970-01-01T00:00:00.002Z" then JSNum.num 2
  else if s = "1970-01-01T00:00:00.003Z" then JSNum.num 3
  else JSNum.nan

/-- The text of `q` with `digits` fraction digits, as `toFixed` writes it: the magnitude is
rounded to the nearest multiple of `10 ^ -digits`, a tie going up, and a negative `q` gets a
minus sign. -/
def fixedText (q : ℚ) (digits : Nat) : String :=
  let scaled : Nat := (Rat.floor (|q| * 10 ^ digits + 1 / 2)).toNat
  let whole := toString (scaled / 10 ^ digits)
  let frac := toString (scaled % 10 ^ digits)
  let body :=
    if digits = 0 then whole
    else whole ++ "." ++ String.mk (List.replicate (digits - frac.length) '0') ++ frac
  if q < 0 then "-" ++ body else body

/-- A runtime for the worked examples: ASCII lower-casing, decimal parsing, the dates of
`sampleDate`, and arithmetic on finite numbers carried out exactly. -/
def sampleRuntime : Runtime where
  toLowerCase := asciiLower
  parseFloat := parseDecimal
  parseInt := parseDigits
  dateValue := sampleDate
  add := fun a b =>
    match a, b with
    | JSNum.num x, JSNum.num y => JSNum.num (x + y)
    | _, _ => JSNum.nan
  div := fun a b =>
    match a, b with
    | JSNum.num x, JSNum.num y => if y = 0 then JSNum.nan else JSNum.num (x / y)
    | _, _ => JSNum.nan
  toFixed := fun x digits =>
    match x with
    | JSNum.num q => fixedText q digits
    | JSNum.nan => "NaN"
    | JSNum.posInf => "Infinity"
    | JSNum.negInf => "-Infinity"
  parseFloat_empty := by decide

/-! ## Binary64 arithmetic -/

/-- The number of binary digits of `n`, with `fuel` steps. -/
def bitLengthAux : Nat → Nat → Nat
  | 0, _ => 0
  | fuel + 1, n => if n = 0 then 0 else bitLengthAux fuel (n / 2) + 1

/-- The number of binary digits of `n`: `2 ^ (bitLength n - 1) ≤ n < 2 ^ bitLength n`. -/
def bitLength (n : Nat) : Nat :=
  bitLengthAux n n

/-- The integer nearest to `n / d`, a tie going to the even one. -/
def roundHalfEven (n d : Nat) : Nat :=
  let q := n / d
  let r := n % d
  if 2 * r < d then q
  else if d < 2 * r then q + 1
  else if q % 2 = 0 then q
  else q + 1

/-- The binary64 value nearest to `x` (round to nearest, ties to even): 53 significant bits
from the exponent `-1022` up, multiples of `2 ^ -1074` below it, an infinity from `2 ^ 1024`
on. -/
def roundBinary64 (x : ℚ) : JSNum :=
  let n := x.num.natAbs
  let d := x.den
  if n = 0 then JSNum.num 0
  else
    let e0 : Int := (bitLength n : Int) - (bitLength d : Int)
    let e : Int := if d * 2 ^ e0.toNat ≤ n * 2 ^ (-e0).toNat then e0 else e0 - 1
    let shift : Int := if e < -1022 then 1074 else 52 - e
    let m := roundHalfEven (n * 2 ^ shift.toNat) (d * 2 ^ (-shift).toNat)
    let magnitude : ℚ := mkRat (m * 2 ^ (-shift).toNat : Nat) (2 ^ shift.toNat)
    if 1024 ≤ e ∨ (e = 1023 ∧ m = 2 ^ 53) then
      if x.num < 0 then JSNum.negInf else JSNum.posInf
    else if x.num < 0 then JSNum.num (-magnitude)
    else JSNum.num magnitude

/-- Binary64 addition: the exact sum, rounded. -/
def binary64Add : JSNum → JSNum → JSNum
  | JSNum.num x, JSNum.num y => roundBinary64 (x + y)
  | JSNum.nan, _ => JSNum.nan
  | _, JSNum.nan => JSNum.nan
  | JSNum.posInf, JSNum.negInf => JSNum.nan
  | JSNum.negInf, JSNum.posInf => JSNum.nan
  | JSNum.posInf, _ => JSNum.posInf
  | JSNum.negInf, _ => JSNum.negInf
  | _, JSNum.posInf => JSNum.posInf
  | _, JSNum.negInf => JSNum.negInf

/-- Binary64 division: the exact quotient, rounded.  The sign of a zero is not represented,
so a zero divisor is taken as `+0`. -/
def binary64Div : JSNum → JSNum → JSNum
  | JSNum.num x, JSNum.num y =>
    if y = 0 then
      if x = 0 then JSNum.nan else if x < 0 then JSNum.negInf else JSNum.posInf
    else roundBinary64 (x / y)
  | JSNum.nan, _ => JSNum.nan
  | _, JSNum.nan => JSNum.nan
  | JSNum.num _, _ => JSNum.num 0
  | JSNum.posInf, JSNum.num y => if y < 0 then JSNum.negInf else JSNum.posInf
  | JSNum.negInf, JSNum.num y => if y < 0 then JSNum.posInf else JSNum.negInf
  | _, _ => JSNum.nan

/-- The global `parseFloat` on the texts `toFixed` writes (an optional minus sign before
`digits` or `digits.digits`, `Infinity`, `-Infinity`, `NaN`) and on texts that start with a
letter other than `I`: the number written, rounded to binary64. -/
def binary64ParseFloat (s : String) : JSNum :=
  if s = "Infinity" then JSNum.posInf
  else if s = "-Infinity" then JSNum.negInf
  else
    match s.data with
    | '-' :: rest =>
      match parseDecimal (String.mk rest) with
      | JSNum.num q => roundBinary64 (-q)
      | _ => JSNum.nan
    | _ =>
      match parseDecimal s with
      | JSNum.num q => roundBinary64 q
      | _ => JSNum.nan

/-- The runtime with binary64 arithmetic: sums and quotients are rounded to the nearest
binary64 value, `toFixed` writes the decimal text nearest to the exact value of its
argument (magnitudes below `10 ^ 21`), and `parseFloat` reads such a text back. -/
def binary64Runtime : Runtime where
  toLowerCase := asciiLower
  parseFloat := binary64ParseFloat
  parseInt := fun s =>
    match parseDigits s with
    | JSNum.num q => roundBinary64 q
    | _ => JSNum.nan
  dateValue := sampleDate
  add := binary64Add
  div := binary64Div
  toFixed := fun x digits =>
    match x with
    | JSNum.num q => fixedText q digits
    | JSNum.nan => "NaN"
    | JSNum.posInf => "Infinity"
    | JSNum.negInf => "-Infinity"
  parseFloat_empty := by decide

/-! ## The contracts in the words of the specification -/

/-- The listing contract: the restaurant satisfies every supplied filter.  `search` keeps it
when its lower-cased name or description contains the lower-cased text, `category` when the
lower-cased categories are equal, `minRating` when `averageRating >=` the parsed number,
`priceRange` when `priceRange` equals the parsed integer; an absent filter (`none`) keeps
everything. -/
def meetsFilters (rt : Runtime) (search category minRating priceRange : Option String) :
    Restaurant → Bool := fun r =>
  (match search with
    | some s =>
      includes (rt.toLowerCase r.name) (rt.toLowerCase s) ||
      includes (rt.toLowerCase r.description) (rt.toLowerCase s)
    | none => true) &&
  (match category with
    | some c => decide (rt.toLowerCase r.category = rt.toLowerCase c)
    | none => true) &&
  (match minRating with
    | some m => JSNum.ge (toNumber r.averageRating) (rt.parseFloat m)
    | none => true) &&
  (match priceRange with
    | some p => JSNum.strictEq (JSNum.num r.priceRange) (rt.parseInt p)
    | none => true)

/-- The order "key non-increasing" on which the two sorts of the handlers work. -/
def keyDesc {α : Type} (key : α → ℚ) (a b : α) : Prop := key b ≤ key a

instance keyDesc_decidable {α : Type} (key : α → ℚ) : DecidableRel (keyDesc key) :=
  fun a b => inferInstanceAs (Decidable (key b ≤ key a))

instance keyDesc_total {α : Type} (key : α → ℚ) : IsTotal α (keyDesc key) :=
  ⟨fun a b => le_total (key b) (key a)⟩

instance keyDesc_trans {α : Type} (key : α → ℚ) : IsTrans α (keyDesc key) :=
  ⟨fun _ _ _ hab hbc => le_trans hbc hab⟩

/-- The time value of a review's `createdAt` when the date is valid (`0` otherwise): the
key on which the comparator of the review sort works. -/
def timeValue (rt : Runtime) (v : Review) : ℚ :=
  match rt.dateValue v.createdAt with
  | JSNum.num t => t
  | _ => 0

/-! ## Sample records for the worked examples -/

/-- A restaurant rated exactly 4.5. -/
def pizzaPalace : Restaurant :=
  { id := 1, name := "Pizza Palace", description := "Wood-fired pies", category := "Italian",
    averageRating := some (9 / 2), priceRange := 2 }

/-- A restaurant rated 4.4. -/
def sushiBar : Restaurant :=
  { id := 2, name := "Sushi Bar", description := "Fresh nigiri", category := "Japanese",
    averageRating := some (22 / 5), priceRange := 3 }

/-- A restaurant with the largest id of the sample collection. -/
def noodleHouse : Restaurant :=
  { id := 50, name := "Noodle House", description := "Hand-pulled noodles", category := "Thai",
    averageRating := none, priceRange := 1 }

/-- The oldest review of restaurant 1. -/
def reviewOld : Review :=
  { id := 1, restaurantId := 1, createdAt := "1970-01-01T00:00:00.001Z", rating := 4,
    text := "Good" }

/-- The newest review of restaurant 1. -/
def reviewNew : Review :=
  { id := 2, restaurantId := 1, createdAt := "1970-01-01T00:00:00.003Z", rating := 5,
    text := "Great" }

/-- A review of restaurant 2. -/
def reviewOther : Review :=
  { id := 3, restaurantId := 2, createdAt := "1970-01-01T00:00:00.002Z", rating := 3,
    text := "Fine" }

/-- The arithmetic mean of the `averageRating` fields in the words of the specification: a
missing field counts as 0 in the sum and the restaurant still counts in the divisor. -/
def meanRating (rs : List Restaurant) : ℚ :=
  (rs.map fun r => r.averageRating.getD 0).sum / rs.length

/-- A value rounded to one decimal place: the nearest multiple of `1 / 10`, a tie going up. -/
def roundToTenth (q : ℚ) : ℚ :=
  (Rat.floor (q * 10 + 1 / 2) : ℚ) / 10

/-- A restaurant whose file entry reads `"averageRating": 0.05`; the field holds the binary64
value of that literal. -/
def teaStall : Restaurant :=
  { id := 3, name := "Tea Stall", description := "Milk tea", category := "Cafe",
    averageRating := some (3602879701896397 / 72057594037927936), priceRange := 1 }

/-- A restaurant whose file entry reads `"averageRating": 0.25`. -/
def juiceCart : Restaurant :=
  { id := 4, name := "Juice Cart", description := "Fresh juice", category := "Cafe",
    averageRating := some (1 / 4), priceRange := 1 }

/-- A restaurant whose file entry reads `"averageRating": 4.2`; the field holds the binary64
value of that literal. -/
def curryCorner : Restaurant :=
  { id := 5, name := "Curry Corner", description := "Green curry", category := "Thai",
    averageRating := some (4728779608739021 / 1125899906842624), priceRange := 2 }

/-! ## Sorting lemmas -/

section Sorting

variable {α : Type}

theorem orderedInsert_congr (r s : α → α → Prop) [DecidableRel r] [DecidableRel s]
    (a : α) (l : List α) (h : ∀ b ∈ l, r a b ↔ s a b) :
    List.orderedInsert r a l = List.orderedInsert s a l := by
  induction l with
  | nil => rfl
  | cons b l ih =>
    have hb : r a b ↔ s a b := h b (List.mem_cons_self b l)
    have hl : ∀ c ∈ l, r a c ↔ s a c := fun c hc => h c (List.mem_cons_of_mem b hc)
    by_cases hr : r a b
    · have hs : s a b := hb.mp hr
      simp [List.orderedInsert, hr, hs]
    · have hs : ¬ s a b := fun hs => hr (hb.mpr hs)
      simp [List.orderedInsert, hr, hs, ih hl]

theorem insertionSort_congr (r s : α → α → Prop) [DecidableRel r] [DecidableRel s]
    (l : List α) (h : ∀ a ∈ l, ∀ b ∈ l, r a b ↔ s a b) :
    List.insertionSort r l = List.insertionSort s l := by
  induction l with
  | nil => rfl
  | cons a l ih =>
    have hl : ∀ x ∈ l, ∀ y ∈ l, r x y ↔ s x y := fun x hx y hy =>
      h x (List.mem_cons_of_mem a hx) y (List.mem_cons_of_mem a hy)
    have ha : ∀ b ∈ List.insertionSort s l, r a b ↔ s a b := fun b hb =>
      h a (List.mem_cons_self a l) b
        (List.mem_cons_of_mem a ((List.mem_insertionSort s).mp hb))
    simp only [List.insertionSort, ih hl]
    exact orderedInsert_congr r s a _ ha

/-- When the comparator agrees, on the elements of the array, with "the key of the second
argument is at most the key of the first", `sort` returns a permutation of the array that is
non-increasing in the key and keeps every non-increasing subsequence in place. -/
theorem arraySort_keyDesc (comparefn : α → α → JSNum) (key : α → ℚ) (xs : List α)
    (h : ∀ a ∈ xs, ∀ b ∈ xs, (comparefn a b).isPositive = false ↔ key b ≤ key a) :
    (arraySort comparefn xs).Perm xs ∧
    (arraySort comparefn xs).Pairwise (keyDesc key) ∧
    ∀ c : List α, c.Sublist xs → c.Pairwise (keyDesc key) →
      c.Sublist (arraySort comparefn xs) := by
  have e : arraySort comparefn xs = List.insertionSort (keyDesc key) xs :=
    insertionSort_congr _ _ xs h
  rw [e]
  exact ⟨List.perm_insertionSort _ xs, List.sorted_insertionSort _ xs,
    fun c hc hp => List.sublist_insertionSort hp hc⟩

end Sorting

/-! ## `GET /api/restaurants`: the listing -/

/-- The listing is one pass of the conjunction of the filters whose parameter is truthy. -/
theorem getRestaurants_some (rt : Runtime) (rs : List Restaurant) (q : Query) :
    getRestaurants rt (some rs) q =
      Response.ok
        { data := rs.filter (meetsFilters rt (truthy q.search) (truthy q.category)
            (truthy q.minRating) (truthy q.priceRange))
          total := (rs.filter (meetsFilters rt (truthy q.search) (truthy q.category)
            (truthy q.minRating) (truthy q.priceRange))).length
          filters := ⟨truthy q.search, truthy q.category, truthy q.minRating,
            truthy q.priceRange⟩ } := by
  unfold getRestaurants
  cases h1 : truthy q.search <;> cases h2 : truthy q.category <;>
    cases h3 : truthy q.minRating <;> cases h4 : truthy q.priceRange <;>
    delta meetsFilters <;>
    simp [List.filter_filter, Bool.and_comm, Bool.and_assoc, Bool.and_left_comm]

/-- Being kept by the conjunction of filters, one filter at a time. -/
theorem meetsFilters_apply (rt : Runtime) (s c m p : Option String) (r : Restaurant) :
    meetsFilters rt s c m p r =
      (meetsFilters rt s c none p r && meetsFilters rt none none m none r) := by
  cases s <;> cases c <;> cases m <;> cases p <;>
    simp [meetsFilters, Bool.and_comm, Bool.and_assoc, Bool.and_left_comm]

/-- A truthy parameter is returned unchanged by the guard. -/
theorem truthy_some {s : String} (h : s ≠ "") : truthy (some s) = some s := by
  simp [truthy, h]

/-- C1 (as stated) fails: an empty `category` is present in the query, yet the guard
`if (category)` skips it; the listing returns a restaurant whose category is not the empty
string, whereas the stated contract would keep no restaurant. -/
theorem getRestaurants_empty_category_counterexample :
    getRestaurants sampleRuntime (some [pizzaPalace]) ⟨none, some "", none, none⟩ =
        Response.ok
          { data := [pizzaPalace], total := 1, filters := ⟨none, none, none, none⟩ } ∧
      [pizzaPalace].filter (meetsFilters sampleRuntime none (some "") none none) = [] := by
  constructor
  · rw [getRestaurants_some]
    with_unfolding_all decide
  · with_unfolding_all decide

/-- C1 (amended): for every runtime, collection and query, the listing returns exactly the
restaurants that satisfy all filters whose value is a non-empty string, in collection order,
with their count and the echoed filters; a filter that is absent or empty imposes no
constraint, so a query without filters returns the collection unchanged; and the search
"pizza" on "Pizza Palace", "Sushi Bar" returns only the former. -/
theorem getRestaurants_returns_matching (rt : Runtime) (rs : List Restaurant) (q : Query) :
    getRestaurants rt (some rs) q =
        Response.ok
          { data := rs.filter (meetsFilters rt (truthy q.search) (truthy q.category)
              (truthy q.minRating) (truthy q.priceRange))
            total := (rs.filter (meetsFilters rt (truthy q.search) (truthy q.category)
              (truthy q.minRating) (truthy q.priceRange))).length
            filters := ⟨truthy q.search, truthy q.category, truthy q.minRating,
              truthy q.priceRange⟩ } ∧
      getRestaurants rt (some rs) ⟨none, none, none, none⟩ =
        Response.ok { data := rs, total := rs.length, filters := ⟨none, none, none, none⟩ } ∧
      getRestaurants sampleRuntime (some [pizzaPalace, sushiBar])
          ⟨some "pizza", none, none, none⟩ =
        Response.ok
          { data := [pizzaPalace], total := 1, filters := ⟨some "pizza", none, none, none⟩ } := by
  refine ⟨getRestaurants_some rt rs q, ?_, ?_⟩
  · rw [getRestaurants_some]
    simp [truthy, meetsFilters]
  · rw [getRestaurants_some]
    with_unfolding_all decide

/-- C7: the listing answers with a sub-list of the collection (so every returned restaurant
is one of the collection), the listing of the returned data under the same query is the
same response again, and the response is determined by the collection and the query. -/
theorem getRestaurants_sublist_idempotent (rt : Runtime) (rs : List Restaurant) (q : Query) :
    ∃ body : ListBody,
      getRestaurants rt (some rs) q = Response.ok body ∧
      body.data.Sublist rs ∧
      (∀ r ∈ body.data, r ∈ rs) ∧
      getRestaurants rt (some body.data) q = Response.ok body ∧
      ∀ again : Response ListBody, again = getRestaurants rt (some rs) q →
        again = Response.ok body := by
  refine ⟨_, getRestaurants_some rt rs q, List.filter_sublist rs, ?_, ?_, ?_⟩
  · intro r hr
    exact (List.mem_filter.mp hr).1
  · rw [getRestaurants_some]
    simp [List.filter_filter]
  · intro again h
    rw [h]
    exact getRestaurants_some rt rs q

/-- C8: when `minRating` is a text the runtime parses to the number `m`, the listing returns
the restaurants of the listing without that filter whose `averageRating` is `>= m`, in the
same order: one rated below `m` is dropped, one rated `m` or more (that passes the other
filters) is kept. -/
theorem getRestaurants_minRating (rt : Runtime) (rs : List Restaurant) (q : Query)
    (s : String) (m : ℚ) (hs : q.minRating = some s) (hm : rt.parseFloat s = JSNum.num m) :
    ∃ body rest : ListBody,
      getRestaurants rt (some rs) q = Response.ok body ∧
      getRestaurants rt (some rs) { q with minRating := none } = Response.ok rest ∧
      body.data = rest.data.filter (fun r => JSNum.ge (toNumber r.averageRating) (JSNum.num m)) ∧
      (∀ r, r ∈ body.data ↔ r ∈ rest.data ∧ ∃ a, r.averageRating = some a ∧ m ≤ a) ∧
      (∀ r a, r.averageRating = some a → a < m → r ∉ body.data) := by
  have hne : s ≠ "" := by
    intro h
    rw [h, rt.parseFloat_empty] at hm
    exact JSNum.noConfusion hm
  have hdata : rs.filter (meetsFilters rt (truthy q.search) (truthy q.category)
        (truthy q.minRating) (truthy q.priceRange)) =
      (rs.filter (meetsFilters rt (truthy q.search) (truthy q.category) none
        (truthy q.priceRange))).filter
          (fun r => JSNum.ge (toNumber r.averageRating) (JSNum.num m)) := by
    rw [List.filter_filter]
    apply List.filter_congr
    intro r _
    rw [meetsFilters_apply, hs, truthy_some hne, Bool.and_comm]
    simp [meetsFilters, hm]
  have hmem : ∀ r : Restaurant,
      JSNum.ge (toNumber r.averageRating) (JSNum.num m) = true ↔
        ∃ a, r.averageRating = some a ∧ m ≤ a := by
    intro r
    cases h : r.averageRating <;> simp [toNumber, JSNum.ge]
  refine ⟨_, _, getRestaurants_some rt rs q, getRestaurants_some rt rs _, ?_, ?_, ?_⟩
  · simpa [truthy] using hdata
  · intro r
    show r ∈ rs.filter (meetsFilters rt (truthy q.search) (truthy q.category)
        (truthy q.minRating) (truthy q.priceRange)) ↔
      r ∈ rs.filter (meetsFilters rt (truthy q.search) (truthy q.category) none
        (truthy q.priceRange)) ∧ ∃ a, r.averageRating = some a ∧ m ≤ a
    rw [hdata, List.mem_filter, hmem]
  · intro r a ha hlt hr
    rw [hdata, List.mem_filter, hmem] at hr
    obtain ⟨_, b, hb, hle⟩ := hr
    rw [ha] at hb
    cases hb
    exact absurd hle (not_le.mpr hlt)

/-- C8 at `minRating=4.5`: the restaurant rated exactly 4.5 is kept and the one rated 4.4
is dropped. -/
theorem getRestaurants_minRating_witness :
    sampleRuntime.parseFloat "4.5" = JSNum.num (9 / 2) ∧
      getRestaurants sampleRuntime (some [pizzaPalace, sushiBar])
          ⟨none, none, some "4.5", none⟩ =
        Response.ok
          { data := [pizzaPalace], total := 1, filters := ⟨none, none, some "4.5", none⟩ } ∧
      ∃ body rest : ListBody,
        getRestaurants sampleRuntime (some [pizzaPalace, sushiBar])
            ⟨none, none, some "4.5", none⟩ = Response.ok body ∧
        getRestaurants sampleRuntime (some [pizzaPalace, sushiBar])
            { (⟨none, none, some "4.5", none⟩ : Query) with minRating := none } =
          Response.ok rest ∧
        body.data =
          rest.data.filter (fun r => JSNum.ge (toNumber r.averageRating) (JSNum.num (9 / 2))) ∧
        (∀ r, r ∈ body.data ↔ r ∈ rest.data ∧ ∃ a, r.averageRating = some a ∧ 9 / 2 ≤ a) ∧
        (∀ r a, r.averageRating = some a → a < 9 / 2 → r ∉ body.data) :=
  ⟨by with_unfolding_all decide,
    by rw [getRestaurants_some]; with_unfolding_all decide,
    getRestaurants_minRating sampleRuntime [pizzaPalace, sushiBar]
      ⟨none, none, some "4.5", none⟩ "4.5" (9 / 2) rfl (by with_unfolding_all decide)⟩

/-- C9 (as stated) fails: `minRating=abc` parses to `NaN`; the listing neither rejects the
request nor ignores the filter: it answers success with no restaurant, while the same
request without the filter returns the restaurant. -/
theorem getRestaurants_unparseable_counterexample :
    sampleRuntime.parseFloat "abc" = JSNum.nan ∧
      getRestaurants sampleRuntime (some [pizzaPalace]) ⟨none, none, some "abc", none⟩ =
        Response.ok { data := [], total := 0, filters := ⟨none, none, some "abc", none⟩ } ∧
      getRestaurants sampleRuntime (some [pizzaPalace]) ⟨none, none, none, none⟩ =
        Response.ok
          { data := [pizzaPalace], total := 1, filters := ⟨none, none, none, none⟩ } := by
  refine ⟨by with_unfolding_all decide, ?_, ?_⟩
  · rw [getRestaurants_some]
    with_unfolding_all decide
  · rw [getRestaurants_some]
    with_unfolding_all decide

/-- C9 (amended): a non-empty `minRating` that `parseFloat` turns into `NaN`, or a non-empty
`priceRange` that `parseInt` turns into `NaN`, is applied as a filter no restaurant passes:
the listing answers success with an empty `data` and `total` 0. -/
theorem getRestaurants_unparseable_empty (rt : Runtime) (rs : List Restaurant) (q : Query)
    (s : String) (hs : s ≠ "")
    (h : (q.minRating = some s ∧ rt.parseFloat s = JSNum.nan) ∨
      (q.priceRange = some s ∧ rt.parseInt s = JSNum.nan)) :
    ∃ body : ListBody,
      getRestaurants rt (some rs) q = Response.ok body ∧ body.data = [] ∧ body.total = 0 := by
  have hnone : rs.filter (meetsFilters rt (truthy q.search) (truthy q.category)
      (truthy q.minRating) (truthy q.priceRange)) = [] := by
    rw [List.filter_eq_nil_iff]
    intro r _
    rcases h with ⟨hq, hp⟩ | ⟨hq, hp⟩
    · rw [meetsFilters_apply, hq, truthy_some hs]
      cases hr : toNumber r.averageRating <;> simp [meetsFilters, hp, JSNum.ge, hr]
    · rw [hq, truthy_some hs]
      cases truthy q.search <;> cases truthy q.category <;> cases truthy q.minRating <;>
        simp [meetsFilters, hp, JSNum.strictEq]
  exact ⟨_, getRestaurants_some rt rs q, hnone, by simp [hnone]⟩

/-- C9 (amended) at `minRating=abc`. -/
theorem getRestaurants_unparseable_empty_witness :
    ∃ body : ListBody,
      getRestaurants sampleRuntime (some [pizzaPalace]) ⟨none, none, some "abc", none⟩ =
        Response.ok body ∧ body.data = [] ∧ body.total = 0 :=
  getRestaurants_unparseable_empty sampleRuntime [pizzaPalace] ⟨none, none, some "abc", none⟩
    "abc" (by decide) (Or.inl ⟨rfl, by with_unfolding_all decide⟩)

/-! ## `GET /api/restaurants/:id`: lookup and review join -/

/-- Strict equality with a finite number. -/
theorem strictEq_num_iff (a : ℚ) (v : JSNum) :
    JSNum.strictEq (JSNum.num a) v = true ↔ v = JSNum.num a := by
  cases v <;> simp [JSNum.strictEq, eq_comm]

/-- The lookup answers 404 exactly when `find` finds nothing. -/
theorem getRestaurantById_find_none (rt : Runtime) (rs : List Restaurant)
    (reviews : List Review) (id : String)
    (h : rs.find? (fun r => JSNum.strictEq (JSNum.num r.id) (rt.parseInt id)) = none) :
    getRestaurantById rt (some rs) (some reviews) id = Response.fail 404 "ไม่พบร้านอาหารนี้" := by
  simp [getRestaurantById, h]

/-- The lookup answers with the restaurant `find` found and its sorted reviews. -/
theorem getRestaurantById_find_some (rt : Runtime) (rs : List Restaurant)
    (reviews : List Review) (id : String) (restaurant : Restaurant)
    (h : rs.find? (fun r => JSNum.strictEq (JSNum.num r.id) (rt.parseInt id)) =
      some restaurant) :
    getRestaurantById rt (some rs) (some reviews) id =
      Response.ok
        { restaurant := restaurant
          reviews :=
            arraySort
              (fun a b => JSNum.sub (rt.dateValue b.createdAt) (rt.dateValue a.createdAt))
              (reviews.filter fun r =>
                JSNum.strictEq (JSNum.num r.restaurantId) (rt.parseInt id)) } := by
  simp [getRestaurantById, h]

/-- What `find` answers, in terms of the ids of the collection. -/
theorem find_id_none_iff (rt : Runtime) (rs : List Restaurant) (id : String) :
    rs.find? (fun r => JSNum.strictEq (JSNum.num r.id) (rt.parseInt id)) = none ↔
      ¬ ∃ r ∈ rs, rt.parseInt id = JSNum.num r.id := by
  rw [List.find?_eq_none]
  constructor
  · rintro h ⟨r, hr, he⟩
    exact h r hr ((strictEq_num_iff r.id _).mpr he)
  · intro h r hr he
    exact h ⟨r, hr, (strictEq_num_iff r.id _).mp he⟩

/-- C2: with both files read, the lookup answers the 404 failure exactly when no restaurant
of the collection has the id the identifier parses to; otherwise it answers success.  An
identifier that parses to `NaN` is answered 404, and so is id 9999 on a collection whose
largest id is 50. -/
theorem getRestaurantById_not_found_iff (rt : Runtime) (rs : List Restaurant)
    (reviews : List Review) (id : String) :
    (getRestaurantById rt (some rs) (some reviews) id = Response.fail 404 "ไม่พบร้านอาหารนี้" ↔
        ¬ ∃ r ∈ rs, rt.parseInt id = JSNum.num r.id) ∧
      ((getRestaurantById rt (some rs) (some reviews) id).isFailure = true ↔
        ¬ ∃ r ∈ rs, rt.parseInt id = JSNum.num r.id) ∧
      ((∃ r ∈ rs, rt.parseInt id = JSNum.num r.id) ↔
        ∃ body : DetailBody,
          getRestaurantById rt (some rs) (some reviews) id = Response.ok body) ∧
      (rt.parseInt id = JSNum.nan →
        getRestaurantById rt (some rs) (some reviews) id =
          Response.fail 404 "ไม่พบร้านอาหารนี้") ∧
      getRestaurantById sampleRuntime (some [pizzaPalace, sushiBar, noodleHouse])
          (some [reviewOld, reviewNew, reviewOther]) "9999" =
        Response.fail 404 "ไม่พบร้านอาหารนี้" := by
  have hcases : (rs.find? (fun r => JSNum.strictEq (JSNum.num r.id) (rt.parseInt id)) = none ∧
        getRestaurantById rt (some rs) (some reviews) id =
          Response.fail 404 "ไม่พบร้านอาหารนี้") ∨
      (rs.find? (fun r => JSNum.strictEq (JSNum.num r.id) (rt.parseInt id)) ≠ none ∧
        ∃ body : DetailBody,
          getRestaurantById rt (some rs) (some reviews) id = Response.ok body) := by
    cases h : rs.find? (fun r => JSNum.strictEq (JSNum.num r.id) (rt.parseInt id)) with
    | none => exact Or.inl ⟨rfl, getRestaurantById_find_none rt rs reviews id h⟩
    | some restaurant =>
      exact Or.inr ⟨by simp, _, getRestaurantById_find_some rt rs reviews id restaurant h⟩
  have hnone := find_id_none_iff rt rs id
  refine ⟨?_, ?_, ?_, ?_, ?_⟩
  · rcases hcases with ⟨hf, hr⟩ | ⟨hf, body, hr⟩
    · exact ⟨fun _ => hnone.mp hf, fun _ => hr⟩
    · rw [hr]
      exact ⟨fun h => (by cases h), fun h => absurd (hnone.mpr h) hf⟩
  · rcases hcases with ⟨hf, hr⟩ | ⟨hf, body, hr⟩
    · rw [hr]
      exact ⟨fun _ => hnone.mp hf, fun _ => rfl⟩
    · rw [hr]
      exact ⟨fun h => (by cases h), fun h => absurd (hnone.mpr h) hf⟩
  · rcases hcases with ⟨hf, hr⟩ | ⟨hf, body, hr⟩
    · rw [hr]
      constructor
      · intro h
        exact absurd h (hnone.mp hf)
      · rintro ⟨body, hb⟩
        cases hb
    · constructor
      · intro _
        exact ⟨body, hr⟩
      · intro _
        by_contra hno
        exact hf (hnone.mpr hno)
  · intro hnan
    rcases hcases with ⟨_, hr⟩ | ⟨hf, _⟩
    · exact hr
    · exfalso
      apply hf
      rw [hnone]
      rintro ⟨r, _, he⟩
      rw [hnan] at he
      cases he
  · decide

/-- The comparator `(a, b) => y - x` asks for a swap exactly when `y > x`. -/
theorem isPositive_sub_num (x y : ℚ) :
    (JSNum.sub (JSNum.num x) (JSNum.num y)).isPositive = false ↔ x ≤ y := by
  simp [JSNum.sub, JSNum.isPositive]

/-- A list that is non-increasing in the key is non-increasing for `>=` on the values the
key stands for. -/
theorem pairwise_ge_of_keyDesc {α : Type} (val : α → JSNum) (key : α → ℚ) (l : List α)
    (hval : ∀ a ∈ l, val a = JSNum.num (key a)) (hp : l.Pairwise (keyDesc key)) :
    l.Pairwise (fun a b => JSNum.ge (val a) (val b) = true) := by
  refine hp.imp_of_mem ?_
  intro a b ha hb h
  rw [hval a ha, hval b hb]
  simpa [JSNum.ge, keyDesc] using h

/-- C3: when the identifier parses to the id `n` of a restaurant of the collection and every
review has a valid `createdAt`, the lookup answers success; the attached `reviews` are a
rearrangement of exactly the reviews whose `restaurantId` is `n` (each as often as it occurs
in the file, no other review), every review in the answer is dated `>=` every review after
it, and the first one is dated `>=` every review of the restaurant. -/
theorem getRestaurantById_reviews_sorted (rt : Runtime) (rs : List Restaurant)
    (reviews : List Review) (id : String) (n : ℚ)
    (hid : rt.parseInt id = JSNum.num n)
    (hex : ∃ r ∈ rs, r.id = n)
    (hvalid : ∀ v ∈ reviews, ∃ t : ℚ, rt.dateValue v.createdAt = JSNum.num t) :
    ∃ body : DetailBody,
      getRestaurantById rt (some rs) (some reviews) id = Response.ok body ∧
      body.restaurant ∈ rs ∧ body.restaurant.id = n ∧
      body.reviews.Perm (reviews.filter fun v => decide (v.restaurantId = n)) ∧
      body.reviews.Pairwise
        (fun a b => JSNum.ge (rt.dateValue a.createdAt) (rt.dateValue b.createdAt) = true) ∧
      (∀ first, body.reviews.head? = some first →
        ∀ v ∈ reviews, v.restaurantId = n →
          JSNum.ge (rt.dateValue first.createdAt) (rt.dateValue v.createdAt) = true) := by
  have hfilter : (reviews.filter fun r =>
        JSNum.strictEq (JSNum.num r.restaurantId) (rt.parseInt id)) =
      reviews.filter fun v => decide (v.restaurantId = n) := by
    apply List.filter_congr
    intro v _
    simp [hid, JSNum.strictEq]
  have hval : ∀ v ∈ reviews, rt.dateValue v.createdAt = JSNum.num (timeValue rt v) := by
    intro v hv
    obtain ⟨t, ht⟩ := hvalid v hv
    simp [timeValue, ht]
  have hsub : ∀ v, v ∈ (reviews.filter fun v => decide (v.restaurantId = n)) → v ∈ reviews :=
    fun v hv => (List.mem_filter.mp hv).1
  obtain ⟨hperm, hsorted, _⟩ :=
    arraySort_keyDesc
      (fun a b : Review => JSNum.sub (rt.dateValue b.createdAt) (rt.dateValue a.createdAt))
      (timeValue rt) (reviews.filter fun v => decide (v.restaurantId = n))
      (by
        intro a ha b hb
        show (JSNum.sub (rt.dateValue b.createdAt) (rt.dateValue a.createdAt)).isPositive =
          false ↔ _
        rw [hval a (hsub a ha), hval b (hsub b hb)]
        exact isPositive_sub_num _ _)
  have hmemsorted : ∀ v, v ∈ arraySort
      (fun a b : Review => JSNum.sub (rt.dateValue b.createdAt) (rt.dateValue a.createdAt))
      (reviews.filter fun v => decide (v.restaurantId = n)) → v ∈ reviews :=
    fun v hv => hsub v (hperm.mem_iff.mp hv)
  have hge := pairwise_ge_of_keyDesc (fun v : Review => rt.dateValue v.createdAt)
    (timeValue rt) _ (fun v hv => hval v (hmemsorted v hv)) hsorted
  cases hfind : rs.find? (fun r => JSNum.strictEq (JSNum.num r.id) (rt.parseInt id)) with
  | none =>
    exfalso
    obtain ⟨r, hr, he⟩ := hex
    exact (find_id_none_iff rt rs id).mp hfind ⟨r, hr, by rw [hid, he]⟩
  | some restaurant =>
    have hin : restaurant ∈ rs := List.mem_of_find?_eq_some hfind
    have hidn : restaurant.id = n := by
      have h := List.find?_some hfind
      rw [strictEq_num_iff, hid] at h
      cases h
      rfl
    refine ⟨_, getRestaurantById_find_some rt rs reviews id restaurant hfind, hin, hidn, ?_, ?_, ?_⟩
    · show (arraySort _ _).Perm _
      rw [hfilter]
      exact hperm
    · show (arraySort _ _).Pairwise _
      rw [hfilter]
      exact hge
    · intro first hfirst v hv hvn
      have hfirst' : (arraySort
          (fun a b : Review => JSNum.sub (rt.dateValue b.createdAt) (rt.dateValue a.createdAt))
          (reviews.filter fun v => decide (v.restaurantId = n))).head? = some first := by
        rw [← hfilter]
        exact hfirst
      have hvs : v ∈ arraySort
          (fun a b : Review => JSNum.sub (rt.dateValue b.createdAt) (rt.dateValue a.createdAt))
          (reviews.filter fun v => decide (v.restaurantId = n)) :=
        hperm.mem_iff.mpr (List.mem_filter.mpr ⟨hv, by simpa using hvn⟩)
      cases hl : arraySort
          (fun a b : Review => JSNum.sub (rt.dateValue b.createdAt) (rt.dateValue a.createdAt))
          (reviews.filter fun v => decide (v.restaurantId = n)) with
      | nil =>
        rw [hl] at hfirst'
        cases hfirst'
      | cons x rest =>
        rw [hl] at hfirst' hvs hge
        simp only [List.head?_cons, Option.some.injEq] at hfirst'
        subst hfirst'
        rcases List.mem_cons.mp hvs with rfl | hrest
        · rw [hval v hv]
          simp [JSNum.ge]
        · exact (List.pairwise_cons.mp hge).1 v hrest

/-- C3 on the sample data: the reviews of restaurant 1 come back newest first, and the
review of restaurant 2 is not among them. -/
theorem getRestaurantById_reviews_sorted_witness :
    getRestaurantById sampleRuntime (some [pizzaPalace, sushiBar, noodleHouse])
        (some [reviewOld, reviewNew, reviewOther]) "1" =
      Response.ok { restaurant := pizzaPalace, reviews := [reviewNew, reviewOld] } ∧
    ∃ body : DetailBody,
      getRestaurantById sampleRuntime (some [pizzaPalace, sushiBar, noodleHouse])
        (some [reviewOld, reviewNew, reviewOther]) "1" = Response.ok body ∧
      body.restaurant ∈ [pizzaPalace, sushiBar, noodleHouse] ∧ body.restaurant.id = 1 ∧
      body.reviews.Perm
        ([reviewOld, reviewNew, reviewOther].filter fun v => decide (v.restaurantId = 1)) ∧
      body.reviews.Pairwise
        (fun a b => JSNum.ge (sampleRuntime.dateValue a.createdAt)
          (sampleRuntime.dateValue b.createdAt) = true) ∧
      (∀ first, body.reviews.head? = some first →
        ∀ v ∈ [reviewOld, reviewNew, reviewOther], v.restaurantId = 1 →
          JSNum.ge (sampleRuntime.dateValue first.createdAt)
            (sampleRuntime.dateValue v.createdAt) = true) :=
  ⟨by with_unfolding_all decide,
    getRestaurantById_reviews_sorted sampleRuntime [pizzaPalace, sushiBar, noodleHouse]
      [reviewOld, reviewNew, reviewOther] "1" 1 (by decide)
      ⟨pizzaPalace, List.mem_cons_self _ _, rfl⟩
      (by
        intro v hv
        simp only [List.mem_cons, List.mem_singleton, List.not_mem_nil, or_false] at hv
        rcases hv with rfl | rfl | rfl
        · exact ⟨1, by decide⟩
        · exact ⟨3, by decide⟩
        · exact ⟨2, by decide⟩)⟩

/-! ## `GET /api/stats` -/

/-- Reading `averageRating` of a record gives its field. -/
theorem readAverageRating_record (r : Restaurant) :
    readAverageRating (Element.record r) = some r.averageRating := rfl

/-- Reading `averageRating` of a value that is not an object gives `undefined`. -/
theorem readAverageRating_plain (v : Plain) :
    readAverageRating (Element.plain v) = some none := rfl

/-- Reading `averageRating` of `null` throws. -/
theorem readAverageRating_null : readAverageRating Element.null = none := rfl

/-- Over records the running sum of `reduce` never throws. -/
theorem foldlM_records (rt : Runtime) (rs : List Restaurant) (init : JSNum) :
    (rs.map Element.record).foldlM
        (fun sum r => (readAverageRating r).map fun v => rt.add sum (JSNum.num (orZero v)))
        init =
      some (rs.foldl (fun sum r => rt.add sum (JSNum.num (ratingOrZero r))) init) := by
  induction rs generalizing init with
  | nil => rfl
  | cons r rs ih =>
    simp only [List.map_cons, List.foldlM_cons, readAverageRating_record, Option.map_some',
      Option.bind_eq_bind, Option.some_bind, List.foldl_cons, ih]
    rfl

/-- Over records the `typeof` filter keeps the records with a numeric rating. -/
theorem keepRated_records (rs : List Restaurant) :
    keepRated (rs.map Element.record) = some (rs.filter fun r => r.averageRating.isSome) := by
  induction rs with
  | nil => rfl
  | cons r rs ih =>
    by_cases h : r.averageRating.isSome = true <;> simp [keepRated, ih, h]

/-- The running sum of `reduce` throws exactly when an element is `null`. -/
theorem foldlM_eq_none_iff (rt : Runtime) (es : List (Element Restaurant)) (init : JSNum) :
    es.foldlM
        (fun sum r => (readAverageRating r).map fun v => rt.add sum (JSNum.num (orZero v)))
        init = none ↔ Element.null ∈ es := by
  induction es generalizing init with
  | nil => simp
  | cons e es ih =>
    cases e with
    | null =>
      simp only [List.foldlM_cons, readAverageRating_null, Option.map_none',
        Option.bind_eq_bind, Option.none_bind, List.mem_cons, true_or]
    | plain v =>
      simp only [List.foldlM_cons, readAverageRating_plain, Option.map_some',
        Option.bind_eq_bind, Option.some_bind, ih, List.mem_cons, false_or, reduceCtorEq]
    | record r =>
      simp only [List.foldlM_cons, readAverageRating_record, Option.map_some',
        Option.bind_eq_bind, Option.some_bind, ih, List.mem_cons, false_or, reduceCtorEq]

/-- The `typeof` filter throws exactly when an element is `null`. -/
theorem keepRated_eq_none_iff (es : List (Element Restaurant)) :
    keepRated es = none ↔ Element.null ∈ es := by
  induction es with
  | nil => simp [keepRated]
  | cons e es ih =>
    cases e with
    | null => simp [keepRated]
    | plain v => simp [keepRated, ih]
    | record r => simp [keepRated, ih]

/-- The response of the statistics handler when both files hold arrays and every element of
the restaurant array is a record. -/
theorem getStats_arrays (rt : Runtime) (restaurants : List Restaurant)
    (reviews : List (Element Review)) :
    getStats rt (some (Loaded.array (restaurants.map Element.record)))
        (some (Loaded.array reviews)) =
      Response.ok
        { totalRestaurants := restaurants.length
          totalReviews := reviews.length
          averageRating :=
            if restaurants.length > 0 then
              rt.parseFloat (rt.toFixed
                (rt.div
                  (restaurants.foldl
                    (fun sum r => rt.add sum (JSNum.num (ratingOrZero r))) (JSNum.num 0))
                  (JSNum.num restaurants.length)) 1)
            else JSNum.num 0
          topRatedRestaurants :=
            (arraySort
              (fun a b =>
                JSNum.sub (JSNum.num (ratingOrZero b)) (JSNum.num (ratingOrZero a)))
              (restaurants.filter fun r => r.averageRating.isSome)).take 5 } := by
  simp [getStats, foldlM_records, keepRated_records]

/-- With two arrays, the handler answers from the `catch` block when an element of the
restaurant array is `null`, and answers success otherwise. -/
theorem getStats_arrays_cases (rt : Runtime) (restaurants : List (Element Restaurant))
    (reviews : List (Element Review)) :
    (Element.null ∈ restaurants ∧
        getStats rt (some (Loaded.array restaurants)) (some (Loaded.array reviews)) =
          Response.fail 500 "เกิดข้อผิดพลาดในการดึงสถิติ") ∨
      (Element.null ∉ restaurants ∧
        ∃ body : StatsBody,
          getStats rt (some (Loaded.array restaurants)) (some (Loaded.array reviews)) =
            Response.ok body) := by
  by_cases hnull : Element.null ∈ restaurants
  · left
    refine ⟨hnull, ?_⟩
    have hfold := (foldlM_eq_none_iff rt restaurants (JSNum.num 0)).mpr hnull
    simp [getStats, hfold]
  · right
    refine ⟨hnull, ?_⟩
    cases hfold : restaurants.foldlM
        (fun sum r => (readAverageRating r).map fun v => rt.add sum (JSNum.num (orZero v)))
        (JSNum.num 0) with
    | none => exact absurd ((foldlM_eq_none_iff rt restaurants (JSNum.num 0)).mp hfold) hnull
    | some total =>
      cases hkeep : keepRated restaurants with
      | none => exact absurd ((keepRated_eq_none_iff restaurants).mp hkeep) hnull
      | some rated =>
        simp only [getStats, hfold, hkeep]
        exact ⟨_, rfl⟩

/-- On a restaurant with a numeric rating, `r.averageRating || 0` is that rating. -/
theorem toNumber_rating_of_isSome (r : Restaurant) (h : r.averageRating.isSome = true) :
    toNumber r.averageRating = JSNum.num (ratingOrZero r) := by
  cases hr : r.averageRating with
  | none => simp [hr] at h
  | some q =>
    by_cases hq : q = 0 <;> simp [toNumber, ratingOrZero, orZero, hr, hq]

/-- C4: with both files holding arrays, the restaurant array holding restaurant records,
`topRatedRestaurants` is the first 5 elements of a list `sorted` that is a rearrangement of
the restaurants with a numeric `averageRating`, is non-increasing in `averageRating`, and
keeps the restaurants of any one rating in their original relative order (stable).  Hence it
has at most 5 elements, is non-increasing in `averageRating`, and every rated restaurant left
out (the rest of `sorted`) is rated no higher than every restaurant included. -/
theorem getStats_topRated (rt : Runtime) (restaurants : List Restaurant)
    (reviews : List (Element Review)) :
    ∃ (body : StatsBody) (sorted : List Restaurant),
      getStats rt (some (Loaded.array (restaurants.map Element.record)))
          (some (Loaded.array reviews)) =
        Response.ok body ∧
      body.topRatedRestaurants = sorted.take 5 ∧
      sorted.Perm (restaurants.filter fun r => r.averageRating.isSome) ∧
      sorted.Pairwise
        (fun a b => JSNum.ge (toNumber a.averageRating) (toNumber b.averageRating) = true) ∧
      (∀ v : ℚ, (sorted.filter fun r => decide (r.averageRating = some v)) =
        restaurants.filter fun r => decide (r.averageRating = some v)) ∧
      body.topRatedRestaurants.length ≤ 5 ∧
      body.topRatedRestaurants.Pairwise
        (fun a b => JSNum.ge (toNumber a.averageRating) (toNumber b.averageRating) = true) ∧
      (∀ x ∈ body.topRatedRestaurants, ∀ y ∈ sorted.drop 5,
        JSNum.ge (toNumber x.averageRating) (toNumber y.averageRating) = true) := by
  obtain ⟨hperm, hsorted, hstable⟩ :=
    arraySort_keyDesc
      (fun a b : Restaurant =>
        JSNum.sub (JSNum.num (ratingOrZero b)) (JSNum.num (ratingOrZero a)))
      ratingOrZero (restaurants.filter fun r => r.averageRating.isSome)
      (fun a _ b _ => isPositive_sub_num _ _)
  have hrated : ∀ r, r ∈ arraySort
      (fun a b : Restaurant =>
        JSNum.sub (JSNum.num (ratingOrZero b)) (JSNum.num (ratingOrZero a)))
      (restaurants.filter fun r => r.averageRating.isSome) →
      toNumber r.averageRating = JSNum.num (ratingOrZero r) := by
    intro r hr
    exact toNumber_rating_of_isSome r (List.mem_filter.mp (hperm.mem_iff.mp hr)).2
  have hge := pairwise_ge_of_keyDesc (fun r : Restaurant => toNumber r.averageRating)
    ratingOrZero _ hrated hsorted
  refine ⟨_, _, getStats_arrays rt restaurants reviews, rfl, hperm, hge, ?_, ?_, ?_, ?_⟩
  · intro v
    have hsame : (restaurants.filter fun r => decide (r.averageRating = some v)) =
        ((restaurants.filter fun r => r.averageRating.isSome).filter
          fun r => decide (r.averageRating = some v)) := by
      rw [List.filter_filter]
      apply List.filter_congr
      intro r _
      by_cases h : r.averageRating = some v <;> simp [h]
    have hpw : ((restaurants.filter fun r => r.averageRating.isSome).filter
        fun r => decide (r.averageRating = some v)).Pairwise (keyDesc ratingOrZero) := by
      rw [List.pairwise_iff_forall_sublist]
      intro a b hab
      have ha : a ∈ ((restaurants.filter fun r => r.averageRating.isSome).filter
          fun r => decide (r.averageRating = some v)) := hab.subset (by simp)
      have hb : b ∈ ((restaurants.filter fun r => r.averageRating.isSome).filter
          fun r => decide (r.averageRating = some v)) := hab.subset (by simp)
      have ha' : a.averageRating = some v := by simpa using (List.mem_filter.mp ha).2
      have hb' : b.averageRating = some v := by simpa using (List.mem_filter.mp hb).2
      show ratingOrZero b ≤ ratingOrZero a
      simp [ratingOrZero, ha', hb']
    have hsub := hstable _ (List.filter_sublist _) hpw
    have hsub' := hsub.filter (fun r => decide (r.averageRating = some v))
    rw [List.filter_filter] at hsub'
    simp only [Bool.and_self] at hsub'
    have hlen := (hperm.filter (fun r => decide (r.averageRating = some v))).length_eq
    rw [hsame]
    exact (hsub'.eq_of_length hlen.symm).symm
  · simp [List.length_take]
  · exact hge.sublist (List.take_sublist 5 _)
  · intro x hx y hy
    have hsplit := List.take_append_drop 5 (arraySort
      (fun a b : Restaurant =>
        JSNum.sub (JSNum.num (ratingOrZero b)) (JSNum.num (ratingOrZero a)))
      (restaurants.filter fun r => r.averageRating.isSome))
    rw [← hsplit] at hge
    exact (List.pairwise_append.mp hge).2.2 x hx y hy

unseal Rat.add Rat.sub Rat.mul Rat.inv in
/-- C5 fails on the code.  With binary64 arithmetic and the ratings 0.05 and 0.25 the handler
answers `averageRating` 0.1 (the counts are 2 and 0): the rounded sum is just below 0.3, its
half is just below 0.15, and `toFixed(1)` writes `0.1`; the arithmetic mean of the two stored
values is above 0.15 and is 0.2 when rounded to one decimal.  With the ratings 4.2 and 4.5
the handler answers 4.3 where the rounded mean is 4.4. -/
theorem getStats_averageRating_binary64 :
    roundBinary64 (1 / 20) = toNumber teaStall.averageRating ∧
      roundBinary64 (1 / 4) = toNumber juiceCart.averageRating ∧
      getStats binary64Runtime
          (some (Loaded.array [Element.record teaStall, Element.record juiceCart]))
          (some (Loaded.array [])) =
        Response.ok
          { totalRestaurants := 2, totalReviews := 0,
            averageRating := JSNum.num (3602879701896397 / 36028797018963968),
            topRatedRestaurants := [juiceCart, teaStall] } ∧
      roundBinary64 (1 / 10) = JSNum.num (3602879701896397 / 36028797018963968) ∧
      roundToTenth (meanRating [teaStall, juiceCart]) = 1 / 5 ∧
      roundBinary64 (1 / 5) ≠ JSNum.num (3602879701896397 / 36028797018963968) ∧
      roundBinary64 (21 / 5) = toNumber curryCorner.averageRating ∧
      getStats binary64Runtime
          (some (Loaded.array [Element.record curryCorner, Element.record pizzaPalace]))
          (some (Loaded.array [])) =
        Response.ok
          { totalRestaurants := 2, totalReviews := 0,
            averageRating := JSNum.num (4841369599423283 / 1125899906842624),
            topRatedRestaurants := [pizzaPalace, curryCorner] } ∧
      roundBinary64 (43 / 10) = JSNum.num (4841369599423283 / 1125899906842624) ∧
      roundToTenth (meanRating [curryCorner, pizzaPalace]) = 22 / 5 := by
  decide

/-- C6: on an empty restaurant collection the statistics handler answers success with
`totalRestaurants` 0, `averageRating` 0 and no top restaurant, whatever the runtime; and for
every collection the answer is the same under any division that differs from the runtime's
only where the divisor is zero, so no division by zero contributes to it. -/
theorem getStats_empty_restaurants (rt : Runtime) (reviews : List (Element Review)) :
    getStats rt (some (Loaded.array [])) (some (Loaded.array reviews)) =
        Response.ok
          { totalRestaurants := 0, totalReviews := reviews.length,
            averageRating := JSNum.num 0, topRatedRestaurants := [] } ∧
      ∀ (restaurants : List (Element Restaurant)) (d : JSNum → JSNum → JSNum),
        (∀ x y, y ≠ JSNum.num 0 → d x y = rt.div x y) →
        getStats { rt with div := d } (some (Loaded.array restaurants))
            (some (Loaded.array reviews)) =
          getStats rt (some (Loaded.array restaurants)) (some (Loaded.array reviews)) := by
  constructor
  · simp [getStats, keepRated, arraySort]
  · intro restaurants d hd
    have hquot : ∀ total : JSNum,
        (if restaurants.length > 0 then
          rt.parseFloat (rt.toFixed (d total (JSNum.num restaurants.length)) 1)
        else JSNum.num 0) =
        (if restaurants.length > 0 then
          rt.parseFloat (rt.toFixed (rt.div total (JSNum.num restaurants.length)) 1)
        else JSNum.num 0) := by
      intro total
      by_cases hlen : restaurants.length > 0
      · have hne : JSNum.num (restaurants.length : ℚ) ≠ JSNum.num 0 := by
          intro h
          injection h with h
          have : restaurants.length = 0 := by exact_mod_cast h
          omega
        simp only [hlen, if_true, hd _ _ hne]
      · simp only [hlen, if_false]
    simp only [getStats, hquot]

/-- C10 (as stated) fails: both loaded values are arrays, yet the handler answers a failure
(status 500, `success: false`), because reading `averageRating` of the `null` element throws
inside `reduce` and the `catch` block answers. -/
theorem getStats_null_element_counterexample :
    (Loaded.array [Element.null] : Loaded Restaurant).isArray = true ∧
      (Loaded.array [] : Loaded Review).isArray = true ∧
      getStats sampleRuntime (some (Loaded.array [Element.null])) (some (Loaded.array [])) =
        Response.fail 500 "เกิดข้อผิดพลาดในการดึงสถิติ" ∧
      (getStats sampleRuntime (some (Loaded.array [Element.null]))
        (some (Loaded.array []))).isFailure = true := by
  decide

/-- C10 (amended): with both files read, the statistics handler answers the malformed-data
failure (500, "ไฟล์ข้อมูลไม่ถูกต้อง") exactly when one of the two loaded values is not an array;
it answers success with a body of the four figures exactly when both are arrays and no
element of the restaurant array is `null`; and it answers the general failure of the `catch`
block (500) exactly when both are arrays and an element of the restaurant array is `null`. -/
theorem getStats_malformed_or_null (rt : Runtime) (restaurants : Loaded Restaurant)
    (reviews : Loaded Review) :
    (getStats rt (some restaurants) (some reviews) = Response.fail 500 "ไฟล์ข้อมูลไม่ถูกต้อง" ↔
        (restaurants.isArray = false ∨ reviews.isArray = false)) ∧
      ((∃ body : StatsBody,
          getStats rt (some restaurants) (some reviews) = Response.ok body) ↔
        ∃ rs vs, restaurants = Loaded.array rs ∧ reviews = Loaded.array vs ∧
          Element.null ∉ rs) ∧
      (getStats rt (some restaurants) (some reviews) =
          Response.fail 500 "เกิดข้อผิดพลาดในการดึงสถิติ" ↔
        ∃ rs vs, restaurants = Loaded.array rs ∧ reviews = Loaded.array vs ∧
          Element.null ∈ rs) := by
  have hmsg : "เกิดข้อผิดพลาดในการดึงสถิติ" ≠ "ไฟล์ข้อมูลไม่ถูกต้อง" := by decide
  cases restaurants with
  | array rs =>
    cases reviews with
    | array vs =>
      rcases getStats_arrays_cases rt rs vs with ⟨hnull, hr⟩ | ⟨hnull, body, hr⟩
      · rw [hr]
        simp [Loaded.isArray, hnull, hmsg]
      · rw [hr]
        simp [Loaded.isArray, hnull]
    | other v => simp [getStats, Loaded.isArray, hmsg.symm]
  | other w =>
    cases reviews <;> simp [getStats, Loaded.isArray, hmsg.symm]

end RestaurantReview
